import Mathlib

/-!
Verification of the autograder in `gpt.py` (class `Autograder`).

The program is sequential glue around external collaborators (PDF parsing,
the OpenAI chat/vision API, CLI and file I/O).  We shallowly embed the parts
the claims are about:

* the per-response score-extraction state machine of
  `Autograder.evaluate_combined_pages` (gpt.py lines 184-195),
* the tally dictionaries `total_scores` / `count_per_category` (Python
  `dict`s, modelled as insertion-ordered association lists, which is exactly
  CPython dict semantics),
* the summary phase (lines 201-212); Python `float` arithmetic is modelled
  exactly over `ℚ` (every instance exercised by the claims is exactly
  representable, e.g. 6/2 = 3.00),
* the gateway methods `call_chat` / `call_vision_mixed` (lines 77-102),
  with the underlying API call modelled as an `Except` outcome,
* the extractor `extract_text_and_images_per_page` (lines 28-44), with the
  PyMuPDF/PIL image pipeline (`compress_and_encode`, the `pix.n >= 5`
  RGB conversion) abstracted into an `encode` oracle, since image decoding is
  an external collaborator.

Python string primitives used by the source (`splitlines`, `strip`,
`startswith`/`endswith`, `lower`, `split("/")[0]`, `replace`, `int(...)`) are
re-implemented over `List Char` so that everything evaluates in the kernel.
`str.lower` is modelled on ASCII (the scanned pattern `"score:"` is ASCII);
`int(...)` is modelled with optional sign, ASCII digits and single
underscores between digits, which is Python's grammar for decimal literals
(Python additionally accepts non-ASCII decimal digits; no claim involves
them).  `str.splitlines` is modelled on the separators `\n`, `\r`, `\r\n`
(Python additionally splits on rarer control characters; no claim involves
them).
-/

/-- Python `str.strip()` whitespace set (ASCII part). -/
def pyIsSpace (c : Char) : Bool :=
  c = ' ' || c = '\t' || c = '\n' || c = '\r' || c = '\x0b' || c = '\x0c'

/-- Python `s.strip()` on a character list: drop whitespace from both ends. -/
def pyStrip (l : List Char) : List Char :=
  ((l.dropWhile pyIsSpace).reverse.dropWhile pyIsSpace).reverse

/-- Python `line.strip("**")`: `strip` with an argument strips characters of
the SET `{'*'}` from both ends (gpt.py line 188). -/
def dropStars (l : List Char) : List Char :=
  ((l.dropWhile (fun c => c = '*')).reverse.dropWhile (fun c => c = '*')).reverse

/-- Python `str.splitlines`, accumulator-style: each `\n`, `\r` or `\r\n`
terminates a line; leftover characters form a final line; the empty string
yields no lines (`"a\n".splitlines() == ["a"]`, `"".splitlines() == []`). -/
def pySplitlinesAux : List Char → List Char → List (List Char)
  | acc, [] => if acc.isEmpty then [] else [acc.reverse]
  | acc, '\r' :: '\n' :: rest => acc.reverse :: pySplitlinesAux [] rest
  | acc, '\r' :: rest => acc.reverse :: pySplitlinesAux [] rest
  | acc, '\n' :: rest => acc.reverse :: pySplitlinesAux [] rest
  | acc, c :: rest => pySplitlinesAux (c :: acc) rest

/-- Python `result.splitlines()` (gpt.py line 184). -/
def pySplitlines (s : String) : List (List Char) :=
  pySplitlinesAux [] s.data

/-- Python `line.replace("Score:", "")`: removes every (non-overlapping,
left-to-right) occurrence of the exact, case-sensitive text `Score:`
(gpt.py line 191). -/
def removeScoreColon : List Char → List Char
  | 'S' :: 'c' :: 'o' :: 'r' :: 'e' :: ':' :: rest => removeScoreColon rest
  | c :: rest => c :: removeScoreColon rest
  | [] => []

/-- Digit run of a Python decimal integer literal, after its first digit:
digits with single underscores allowed strictly between digits. -/
def pyDigitsAux : Nat → List Char → Option Nat
  | acc, [] => some acc
  | acc, '_' :: c :: rest =>
      if c.isDigit then pyDigitsAux (acc * 10 + (c.toNat - 48)) rest else none
  | acc, c :: rest =>
      if c.isDigit then pyDigitsAux (acc * 10 + (c.toNat - 48)) rest else none

/-- Nonempty ASCII digit run (value of a Python decimal literal). -/
def pyParseDigits : List Char → Option Nat
  | [] => none
  | c :: rest => if c.isDigit then pyDigitsAux (c.toNat - 48) rest else none

/-- Python `int(s)` on an already-stripped string: optional sign, then a
decimal digit run.  `none` models the `ValueError` that the bare `except`
at gpt.py line 194 swallows. -/
def pyParseInt (l : List Char) : Option Int :=
  match l with
  | '-' :: rest => (pyParseDigits rest).map (fun n => -(n : Int))
  | '+' :: rest => (pyParseDigits rest).map (fun n => (n : Int))
  | _ => (pyParseDigits l).map (fun n => (n : Int))

/-- Python `line.startswith("**") and line.endswith("**")` (gpt.py line 187).
Note `"**"` itself satisfies both, exactly as in Python. -/
def isHeaderLine (l : List Char) : Bool :=
  ['*', '*'].isPrefixOf l && ['*', '*'].isSuffixOf l

/-- Python `line.lower().startswith("score:")` (gpt.py line 189);
`str.lower` modelled by ASCII `Char.toLower`. -/
def isScoreLine (l : List Char) : Bool :=
  ['s', 'c', 'o', 'r', 'e', ':'].isPrefixOf (l.map Char.toLower)

/-- The argument of `int(...)` at gpt.py line 191:
`line.split("/")[0].replace("Score:", "").strip()`.  `split("/")[0]` is the
text before the first `/` (the whole line when there is no `/`). -/
def parsedScore (l : List Char) : Option Int :=
  pyParseInt (pyStrip (removeScoreColon (l.takeWhile (fun c => c ≠ '/'))))

/-! ### Python dicts as insertion-ordered association lists -/

/-- Python `d.get(k, dflt)`. -/
def dictGet {α : Type} (d : List (String × α)) (k : String) (dflt : α) : α :=
  match d with
  | [] => dflt
  | (k', v) :: rest => if k' = k then v else dictGet rest k dflt

/-- Python `d[k] = v`: update in place when the key is present (keeping its
position), otherwise append at the end — CPython insertion order. -/
def dictSet {α : Type} (d : List (String × α)) (k : String) (v : α) :
    List (String × α) :=
  match d with
  | [] => [(k, v)]
  | (k', v') :: rest =>
      if k' = k then (k, v) :: rest else (k', v') :: dictSet rest k v

/-- Python `k in d`. -/
def dictMem {α : Type} (d : List (String × α)) (k : String) : Bool :=
  match d with
  | [] => false
  | (k', _) :: rest => k' = k || dictMem rest k

/-! ### The score-extraction state machine (gpt.py lines 184-195) -/

/-- The two tally dicts of `evaluate_combined_pages`:
`total_scores` maps a category name to its running score sum (a Python
`int`, so `Int`), `count_per_category` to its observation count. -/
structure AggState where
  total_scores : List (String × Int)
  count_per_category : List (String × Nat)
deriving Repr, DecidableEq

/-- Both dicts start empty (gpt.py lines 108-109). -/
def emptyAgg : AggState := ⟨[], []⟩

/-- One iteration of the `for line in lines` loop (gpt.py lines 186-195),
carrying `prev_line` (the pending category text) and the tally state.
The `try`/`except` around `int(...)` is the `parsedScore = none` branch. -/
def stepLine (p : List Char) (st : AggState) (l : List Char) :
    List Char × AggState :=
  if isHeaderLine l then
    (pyStrip (dropStars l), st)
  else if isScoreLine l && !p.isEmpty then
    match parsedScore l with
    | some score =>
        let k := String.mk p
        (p, ⟨dictSet st.total_scores k (dictGet st.total_scores k 0 + score),
             dictSet st.count_per_category k
               (dictGet st.count_per_category k 0 + 1)⟩)
    | none => (p, st)
  else (p, st)

/-- The whole `for line in lines` loop. -/
def runLines : List Char → AggState → List (List Char) → List Char × AggState
  | p, st, [] => (p, st)
  | p, st, l :: ls => runLines (stepLine p st l).1 (stepLine p st l).2 ls

/-- Score extraction for one vision response: `prev_line = ""` is reset for
every image (gpt.py line 185), then the line loop runs. -/
def processResult (st : AggState) (result : String) : AggState :=
  (runLines [] st (pySplitlines result)).2

/-- Folding a list of per-image responses into the shared tally dicts, in
order of arrival. -/
def processAll : AggState → List String → AggState
  | st, [] => st
  | st, r :: rs => processAll (processResult st r) rs

/-- The aggregator run on a list of responses starting from empty tallies. -/
def evaluateResponses (rs : List String) : AggState :=
  processAll emptyAgg rs

/-! ### The summary phase (gpt.py lines 201-212)

Python computes `avg = score_sum / count` as a `float`; we model the value
exactly in `ℚ` and model `f"{x:.2f}"` by rounding `x * 100` to the nearest
integer (Python rounds the closest IEEE-754 double; the two agree whenever
`x * 100` is not within one double ulp of a half-integer, in particular on
every value the claims exercise, where `x * 100` is an integer). -/

/-- Two-digit zero-padded rendering of `n % 100`. -/
def twoDigits (n : Nat) : String :=
  if n < 10 then "0" ++ toString n else toString n

/-- Python `f"{q:.2f}"` for the exact rational value `q` (see note above). -/
def formatRat2 (q : ℚ) : String :=
  if q < 0 then
    "-" ++ (let n := (round ((-q) * 100)).toNat
            toString (n / 100) ++ "." ++ twoDigits (n % 100))
  else
    let n := (round (q * 100)).toNat
    toString (n / 100) ++ "." ++ twoDigits (n % 100)

/-- One per-category summary line (gpt.py line 208):
`f"{cat}: {avg:.2f}/5 (averaged over {count} images)\n"` where
`count = count_per_category[cat]` and `avg = score_sum / count`. -/
def catLine (counts : List (String × Nat)) (cat : String) (score_sum : Int) :
    String :=
  let count := dictGet counts cat 0
  let avg : ℚ := (score_sum : ℚ) / (count : ℚ)
  cat ++ ": " ++ formatRat2 avg ++ "/5 (averaged over " ++ toString count
    ++ " images)\n"

/-- The exact average reported for one `total_scores` item. -/
def itemAvg (counts : List (String × Nat)) (item : String × Int) : ℚ :=
  (item.2 : ℚ) / ((dictGet counts item.1 0 : Nat) : ℚ)

/-- The `for cat, score_sum in total_scores.items()` loop (gpt.py lines
205-210), accumulating the summary text, `final_score` and `max_total`.
Iteration order is dict insertion order, i.e. the association-list order. -/
def summaryLoop (counts : List (String × Nat)) :
    String → ℚ → Nat → List (String × Int) → String × ℚ × Nat
  | s, fs, mt, [] => (s, fs, mt)
  | s, fs, mt, (cat, score_sum) :: rest =>
      summaryLoop counts (s ++ catLine counts cat score_sum)
        (fs + itemAvg counts (cat, score_sum)) (mt + 5) rest

/-- Summary accumulation starting from the literal header
`"\n--- Final Score Summary ---\n"` (gpt.py line 202) and `final_score = 0`,
`max_total = 0` (lines 203-204). -/
def summarize (st : AggState) : String × ℚ × Nat :=
  summaryLoop st.count_per_category "\n--- Final Score Summary ---\n" 0 0
    st.total_scores

/-- The summary section through the total line (gpt.py line 212):
`summary += f"\nTOTAL SCORE: {final_score:.2f}/{max_total}\n"`. -/
def summaryText (st : AggState) : String :=
  (summarize st).1 ++ "\nTOTAL SCORE: " ++ formatRat2 (summarize st).2.1
    ++ "/" ++ toString (summarize st).2.2 ++ "\n"

/-- The reported average of one category: `total_scores[cat] /
count_per_category[cat]` as an exact rational. -/
def categoryAverage (st : AggState) (cat : String) : ℚ :=
  ((dictGet st.total_scores cat 0 : Int) : ℚ)
    / ((dictGet st.count_per_category cat 0 : Nat) : ℚ)

/-! ### Model Gateway (gpt.py lines 77-102)

`call_chat` / `call_vision_mixed` wrap one API call in `try`/`except`.  The
underlying `self.client.chat.completions.create(...)` together with the
field accesses `response.choices[0].message.content` is external; we model
its outcome as `Except String String`: `.ok content` when the `try` body
returns content, `.error e` when any exception is raised inside the `try`. -/

/-- Sentinel returned by `call_chat` on failure (gpt.py line 86). -/
def chatSentinel : String := "[ERROR: Chat API failed]"

/-- Sentinel returned by `call_vision_mixed` on failure (gpt.py line 102). -/
def visionSentinel : String := "[ERROR: Vision API failed]"

/-- `Autograder.call_chat` (gpt.py lines 77-86): return the completion
content, or catch any exception and return the chat sentinel. -/
def call_chat (outcome : Except String String) : String :=
  match outcome with
  | .ok content => content
  | .error _ => chatSentinel

/-- `Autograder.call_vision_mixed` (gpt.py lines 88-102): return the
completion content, or catch any exception and return the vision sentinel. -/
def call_vision_mixed (outcome : Except String String) : String :=
  match outcome with
  | .ok content => content
  | .error _ => visionSentinel

/-! ### Document Extractor (gpt.py lines 28-44) -/

/-- One page of an opened PDF as PyMuPDF presents it: `page.get_text()` and
the embedded raster images of `page.get_images(full=True)` in document
order.  The raw image type is a parameter (opaque bytes). -/
structure PdfPage (Img : Type) where
  text : String
  images : List Img
deriving Repr, DecidableEq

/-- The page record appended at gpt.py line 43:
`pages.append({"text": page_text, "images": images})`.  The dict literal has
exactly the keys `"text"` and `"images"`; `page_number` is `none` because no
such key is ever written by the extractor — the consumer reads it with
`page.get("page_number", page_index + 1)` (gpt.py line 112). -/
structure PageRec where
  page_number : Option Nat
  text : String
  images : List String
deriving Repr, DecidableEq

/-- `Autograder.extract_text_and_images_per_page` (gpt.py lines 28-44).
For each page in order: keep the text, and map each embedded image (in
document order) through the encoding pipeline `compress_and_encode`
(preceded by the `pix.n >= 5` RGB conversion), abstracted as `encode`. -/
def extract_text_and_images_per_page {Img : Type} (encode : Img → String)
    (doc : List (PdfPage Img)) : List PageRec :=
  doc.map (fun page => ⟨none, page.text, page.images.map encode⟩)

/-! ### The page/image evaluation loop (gpt.py lines 104-199)

The vision prompt (lines 118-180) is a fixed template interpolating the
rubric, the architect name and `page['text'][:1000]`; the vision call on it
is external, so the pair (prompt construction, `call_vision_mixed`) is
modelled as an oracle `respond` from the truncated page text and the image
to the completion text (the rubric and architect name are fixed for the
whole run and are captured by the oracle). -/

/-- Python `page['text'][:1000]`. -/
def pyTake1000 (s : String) : String :=
  String.mk (s.data.take 1000)

/-- The per-image results entry appended at gpt.py lines 197-199. -/
def resultEntry (page_number : Nat) (img_index : Nat) (img_counter : Nat)
    (result : String) : String :=
  "📄 PDF Page " ++ toString page_number ++ ", 🖼️ Image "
    ++ toString (img_index + 1) ++ " (Global Image " ++ toString img_counter
    ++ ") Evaluation:\n" ++ result ++ "\n"

/-- Loop state of `evaluate_combined_pages`: the `results` list, the two
tally dicts, and `img_counter`. -/
structure EvalAcc where
  results : List String
  st : AggState
  img_counter : Nat
deriving Repr, DecidableEq

/-- One iteration of the inner image loop (gpt.py lines 114-199): bump the
global counter, obtain the vision completion, fold its scores into the
tallies, append the results entry. -/
def imageStep (respond : String → String → String) (page_number : Nat)
    (pageText : String) (acc : EvalAcc) (img_index : Nat) (img : String) :
    EvalAcc :=
  let g := acc.img_counter + 1
  let result := respond (pyTake1000 pageText) img
  ⟨acc.results ++ [resultEntry page_number img_index g result],
   processResult acc.st result, g⟩

/-- The `for img_index, img in enumerate(page["images"])` loop. -/
def imagesLoop (respond : String → String → String) (page_number : Nat)
    (pageText : String) : EvalAcc → Nat → List String → EvalAcc
  | acc, _, [] => acc
  | acc, i, img :: imgs =>
      imagesLoop respond page_number pageText
        (imageStep respond page_number pageText acc i img) (i + 1) imgs

/-- The `for page_index, page in enumerate(pages)` loop (gpt.py line 111),
with `page_number = page.get("page_number", page_index + 1)` (line 112). -/
def pagesLoop (respond : String → String → String) :
    EvalAcc → Nat → List PageRec → EvalAcc
  | acc, _, [] => acc
  | acc, pi, page :: ps =>
      pagesLoop respond
        (imagesLoop respond (page.page_number.getD (pi + 1)) page.text acc 0
          page.images)
        (pi + 1) ps

/-- `Autograder.evaluate_combined_pages` up to the summary phase: run both
loops from empty state. -/
def evaluateCombinedPages (respond : String → String → String)
    (pages : List PageRec) : EvalAcc :=
  pagesLoop respond ⟨[], emptyAgg, 0⟩ 0 pages

/-- Python `"\n".join(results)`. -/
def pyJoin (sep : String) : List String → String
  | [] => ""
  | [s] => s
  | s :: rest => s ++ sep ++ pyJoin sep rest

/-- The full return value of `evaluate_combined_pages` (gpt.py lines
214-222): joined per-image results, the summary through the total line, and
the examiner feedback section; the closing `call_chat` completion is the
oracle argument `feedback`. -/
def fullReport (respond : String → String → String) (feedback : String)
    (pages : List PageRec) : String :=
  let acc := evaluateCombinedPages respond pages
  pyJoin "\n" acc.results ++ "\n" ++ summaryText acc.st
    ++ "\n--- Examiner’s Critical Evaluation ---\n"
    ++ String.mk (pyStrip feedback.data)

/-! ### Dictionary lemmas -/

theorem dictGet_nil {α : Type} (k : String) (dflt : α) :
    dictGet [] k dflt = dflt := rfl

theorem dictGet_dictSet {α : Type} (d : List (String × α)) (k : String)
    (v : α) (c : String) (dflt : α) :
    dictGet (dictSet d k v) c dflt = if k = c then v else dictGet d c dflt := by
  induction d with
  | nil => simp [dictSet, dictGet]
  | cons hd tl ih =>
      obtain ⟨k', v'⟩ := hd
      by_cases hk : k' = k
      · subst hk
        simp only [dictSet, if_pos rfl, dictGet]
        by_cases hc : k' = c <;> simp [hc]
      · simp only [dictSet, if_neg hk, dictGet]
        by_cases hc : k' = c
        · subst hc
          have : ¬ k = k' := fun h => hk h.symm
          simp [this]
        · simp [hc, ih]

theorem dictMem_dictSet {α : Type} (d : List (String × α)) (k : String)
    (v : α) (c : String) :
    dictMem (dictSet d k v) c = (decide (k = c) || dictMem d c) := by
  induction d with
  | nil => simp [dictSet, dictMem]
  | cons hd tl ih =>
      obtain ⟨k', v'⟩ := hd
      by_cases hk : k' = k
      · subst hk
        simp [dictSet, dictMem]
      · simp only [dictSet, if_neg hk, dictMem, ih]
        by_cases hc : k' = c
        · subst hc
          simp
        · simp [hc]

theorem dictGet_eq_dflt_of_not_mem {α : Type} (d : List (String × α))
    (k : String) (dflt : α) (h : dictMem d k = false) :
    dictGet d k dflt = dflt := by
  induction d with
  | nil => rfl
  | cons hd tl ih =>
      obtain ⟨k', v'⟩ := hd
      simp only [dictMem, Bool.or_eq_false_iff, decide_eq_false_iff_not] at h
      simp [dictGet, h.1, ih h.2]

/-- Keys of `dictSet d k v`: `k` together with the keys of `d`. -/
theorem mem_keys_dictSet {α : Type} (d : List (String × α)) (k : String)
    (v : α) (c : String) :
    c ∈ (dictSet d k v).map Prod.fst ↔ c = k ∨ c ∈ d.map Prod.fst := by
  induction d with
  | nil => simp [dictSet]
  | cons hd tl ih =>
      obtain ⟨k', v'⟩ := hd
      by_cases hk : k' = k
      · subst hk
        simp [dictSet]
        try tauto
      · simp [dictSet, if_neg hk, ih]
        tauto

/-- `dictSet` keeps the keys of a dict pairwise distinct. -/
theorem nodup_keys_dictSet {α : Type} (d : List (String × α)) (k : String)
    (v : α) (h : (d.map Prod.fst).Nodup) :
    ((dictSet d k v).map Prod.fst).Nodup := by
  induction d with
  | nil => simp [dictSet]
  | cons hd tl ih =>
      obtain ⟨k', v'⟩ := hd
      simp only [List.map_cons, List.nodup_cons] at h
      by_cases hk : k' = k
      · subst hk
        simp only [dictSet, eq_self_iff_true, if_true, List.map_cons,
          List.nodup_cons]
        exact h
      · simp only [dictSet, if_neg hk, List.map_cons, List.nodup_cons]
        refine ⟨fun hmem => ?_, ih h.2⟩
        rcases (mem_keys_dictSet tl k v k').1 hmem with heq | hmem'
        · exact hk heq
        · exact h.1 hmem'

/-! ### Basic facts about the line machine -/

/-- The `prev_line` carried out of one loop iteration: a header line replaces
the pending category by its trimmed inner text, every other line — including
a `Score:` line, which is NOT cleared — leaves it unchanged. -/
theorem stepLine_fst (p : List Char) (st : AggState) (l : List Char) :
    (stepLine p st l).1 = if isHeaderLine l then pyStrip (dropStars l) else p := by
  unfold stepLine
  by_cases h : isHeaderLine l
  · simp [h]
  · simp only [h, if_neg, Bool.false_eq_true, if_false]
    split
    · split <;> rfl
    · rfl

/-- A line that passes the `score:` test cannot also pass the header test:
its first character lowercases to `s`, while a header starts with `*`. -/
theorem isScoreLine_not_header (l : List Char) (h : isScoreLine l = true) :
    isHeaderLine l = false := by
  cases l with
  | nil => simp [isScoreLine, List.isPrefixOf] at h
  | cons c t =>
      simp only [isScoreLine, List.map_cons, List.isPrefixOf, Bool.and_eq_true,
        beq_iff_eq] at h
      have hc : c ≠ '*' := by
        intro hstar
        rw [hstar] at h
        exact absurd h.1.symm (by decide)
      have hbeq : ('*' == c) = false := by
        simp only [beq_eq_false_iff_ne]
        exact fun hx => hc hx.symm
      simp [isHeaderLine, List.isPrefixOf, hbeq]

/-- The successful-parse branch of the score machine (gpt.py lines 191-193):
with a nonempty pending category `p` and a `Score:` line whose extracted text
parses to `score`, both dicts are updated together at key `p`. -/
theorem stepLine_score_some (p : List Char) (st : AggState) (l : List Char)
    (n : Int) (hp : p ≠ []) (hs : isScoreLine l = true)
    (hn : parsedScore l = some n) :
    (stepLine p st l).2
      = ⟨dictSet st.total_scores (String.mk p)
           (dictGet st.total_scores (String.mk p) 0 + n),
         dictSet st.count_per_category (String.mk p)
           (dictGet st.count_per_category (String.mk p) 0 + 1)⟩ := by
  have hh := isScoreLine_not_header l hs
  have hpe : p.isEmpty = false := by
    cases p with
    | nil => exact absurd rfl hp
    | cons a b => rfl
  simp [stepLine, hh, hs, hpe, hn]

/-- The failing-parse branch (the bare `except: continue`, gpt.py lines
194-195): the state is untouched. -/
theorem stepLine_score_none (p : List Char) (st : AggState) (l : List Char)
    (hn : parsedScore l = none) :
    (stepLine p st l).2.total_scores = st.total_scores
      ∧ (stepLine p st l).2.count_per_category = st.count_per_category := by
  unfold stepLine
  by_cases hh : isHeaderLine l
  · simp [hh]
  · by_cases hs : (isScoreLine l && !p.isEmpty) = true
    · simp [hh, hs, hn]
    · simp [hh, hs]

/-- Per-step additivity of the score sums: the update a line makes to
`total_scores` at any key is the same whether it starts from `st` or from
the empty dicts. -/
theorem stepLine_total_add (p : List Char) (st : AggState) (l : List Char)
    (c : String) :
    dictGet (stepLine p st l).2.total_scores c 0
      = dictGet st.total_scores c 0
        + dictGet (stepLine p emptyAgg l).2.total_scores c 0 := by
  unfold stepLine
  by_cases hh : isHeaderLine l
  · simp [hh, emptyAgg, dictGet]
  · by_cases hs : (isScoreLine l && !p.isEmpty) = true
    · simp only [hh, if_false, Bool.false_eq_true, hs, if_true]
      cases hpar : parsedScore l with
      | none => simp [emptyAgg, dictGet]
      | some n =>
          simp only [emptyAgg, dictGet_dictSet, dictGet_nil]
          by_cases hc : String.mk p = c <;> simp [hc]
    · simp [hh, hs, emptyAgg, dictGet]

/-- Per-step additivity of the observation counts. -/
theorem stepLine_count_add (p : List Char) (st : AggState) (l : List Char)
    (c : String) :
    dictGet (stepLine p st l).2.count_per_category c 0
      = dictGet st.count_per_category c 0
        + dictGet (stepLine p emptyAgg l).2.count_per_category c 0 := by
  unfold stepLine
  by_cases hh : isHeaderLine l
  · simp [hh, emptyAgg, dictGet]
  · by_cases hs : (isScoreLine l && !p.isEmpty) = true
    · simp only [hh, if_false, Bool.false_eq_true, hs, if_true]
      cases hpar : parsedScore l with
      | none => simp [emptyAgg, dictGet]
      | some n =>
          simp only [emptyAgg, dictGet_dictSet, dictGet_nil]
          by_cases hc : String.mk p = c <;> simp [hc]
    · simp [hh, hs, emptyAgg, dictGet]

/-- The pending category evolves independently of the tally state. -/
theorem runLines_fst (ls : List (List Char)) (p : List Char)
    (st st' : AggState) : (runLines p st ls).1 = (runLines p st' ls).1 := by
  induction ls generalizing p st st' with
  | nil => rfl
  | cons l ls ih =>
      simp only [runLines]
      rw [stepLine_fst p st l, ← stepLine_fst p st' l]
      exact ih _ _ _

/-- Additivity of the whole line loop on `total_scores`. -/
theorem runLines_total_add (ls : List (List Char)) (p : List Char)
    (st : AggState) (c : String) :
    dictGet (runLines p st ls).2.total_scores c 0
      = dictGet st.total_scores c 0
        + dictGet (runLines p emptyAgg ls).2.total_scores c 0 := by
  induction ls generalizing p st with
  | nil => simp [runLines, emptyAgg, dictGet]
  | cons l ls ih =>
      simp only [runLines]
      rw [stepLine_fst p st l, stepLine_fst p emptyAgg l]
      rw [ih _ (stepLine p st l).2, ih _ (stepLine p emptyAgg l).2]
      rw [stepLine_total_add p st l c]
      ring

/-- Additivity of the whole line loop on `count_per_category`. -/
theorem runLines_count_add (ls : List (List Char)) (p : List Char)
    (st : AggState) (c : String) :
    dictGet (runLines p st ls).2.count_per_category c 0
      = dictGet st.count_per_category c 0
        + dictGet (runLines p emptyAgg ls).2.count_per_category c 0 := by
  induction ls generalizing p st with
  | nil => simp [runLines, emptyAgg, dictGet]
  | cons l ls ih =>
      simp only [runLines]
      rw [stepLine_fst p st l, stepLine_fst p emptyAgg l]
      rw [ih _ (stepLine p st l).2, ih _ (stepLine p emptyAgg l).2]
      rw [stepLine_count_add p st l c]
      omega

/-- The score-sum contribution of a single response to one category. -/
def respTotal (r : String) (c : String) : Int :=
  dictGet (processResult emptyAgg r).total_scores c 0

/-- The observation-count contribution of a single response to one
category. -/
def respCount (r : String) (c : String) : Nat :=
  dictGet (processResult emptyAgg r).count_per_category c 0

theorem processResult_total (st : AggState) (r : String) (c : String) :
    dictGet (processResult st r).total_scores c 0
      = dictGet st.total_scores c 0 + respTotal r c :=
  runLines_total_add (pySplitlines r) [] st c

theorem processResult_count (st : AggState) (r : String) (c : String) :
    dictGet (processResult st r).count_per_category c 0
      = dictGet st.count_per_category c 0 + respCount r c :=
  runLines_count_add (pySplitlines r) [] st c

/-- The final score sum of any category is the sum of the independent
per-response contributions, whatever the processing order. -/
theorem processAll_total (rs : List String) (st : AggState) (c : String) :
    dictGet (processAll st rs).total_scores c 0
      = dictGet st.total_scores c 0
        + (rs.map (fun r => respTotal r c)).sum := by
  induction rs generalizing st with
  | nil => simp [processAll]
  | cons r rs ih =>
      simp only [processAll, List.map_cons, List.sum_cons]
      rw [ih, processResult_total]
      ring

/-- The final observation count of any category is likewise a sum of
per-response contributions. -/
theorem processAll_count (rs : List String) (st : AggState) (c : String) :
    dictGet (processAll st rs).count_per_category c 0
      = dictGet st.count_per_category c 0
        + (rs.map (fun r => respCount r c)).sum := by
  induction rs generalizing st with
  | nil => simp [processAll]
  | cons r rs ih =>
      simp only [processAll, List.map_cons, List.sum_cons]
      rw [ih, processResult_count]
      omega

theorem evaluateResponses_total (rs : List String) (c : String) :
    dictGet (evaluateResponses rs).total_scores c 0
      = (rs.map (fun r => respTotal r c)).sum := by
  rw [evaluateResponses, processAll_total]
  simp [emptyAgg, dictGet]

theorem evaluateResponses_count (rs : List String) (c : String) :
    dictGet (evaluateResponses rs).count_per_category c 0
      = (rs.map (fun r => respCount r c)).sum := by
  rw [evaluateResponses, processAll_count]
  simp [emptyAgg, dictGet]

/-! ### Summary-phase accumulation -/

/-- Concatenation of a list of already-formatted summary lines. -/
def concatAll : List String → String
  | [] => ""
  | s :: rest => s ++ concatAll rest

/-- Closed form of the summary loop: starting from accumulator
`(s, fs, mt)`, it appends one formatted line per `total_scores` item (in
dict order), adds each exact average to `final_score`, and adds 5 to
`max_total` per item. -/
theorem summaryLoop_spec (counts : List (String × Nat))
    (items : List (String × Int)) (s : String) (fs : ℚ) (mt : Nat) :
    summaryLoop counts s fs mt items
      = (s ++ concatAll (items.map (fun it => catLine counts it.1 it.2)),
         fs + (items.map (itemAvg counts)).sum, mt + 5 * items.length) := by
  induction items generalizing s fs mt with
  | nil => simp [summaryLoop, concatAll, String.append_empty]
  | cons it rest ih =>
      obtain ⟨cat, score_sum⟩ := it
      simp only [summaryLoop, ih, List.map_cons, concatAll, List.sum_cons,
        List.length_cons, Prod.mk.injEq]
      refine ⟨?_, ?_, ?_⟩
      · rw [String.append_assoc]
      · ring
      · ring

/-! ### The tally-synchronisation invariant (claim C9) -/

/-- Invariant of the two tally dicts: every key of `total_scores` is a key
of `count_per_category` with count at least 1. -/
def aggInv (st : AggState) : Prop :=
  ∀ cat : String, dictMem st.total_scores cat = true →
    dictMem st.count_per_category cat = true
      ∧ 1 ≤ dictGet st.count_per_category cat 0

theorem aggInv_empty : aggInv emptyAgg := by
  intro cat h
  simp [emptyAgg, dictMem] at h

theorem stepLine_inv (p : List Char) (st : AggState) (l : List Char)
    (h : aggInv st) : aggInv (stepLine p st l).2 := by
  unfold stepLine
  by_cases hh : isHeaderLine l
  · simpa [hh] using h
  · by_cases hs : (isScoreLine l && !p.isEmpty) = true
    · simp only [hh, Bool.false_eq_true, if_false, hs, if_true]
      cases hpar : parsedScore l with
      | none => simpa using h
      | some n =>
          intro cat hmem
          simp only [dictMem_dictSet, Bool.or_eq_true, decide_eq_true_eq]
            at hmem ⊢
          rw [dictGet_dictSet]
          by_cases hc : String.mk p = cat
          · simp [hc]
          · rcases hmem with heq | hmem'
            · exact absurd heq hc
            · have := h cat hmem'
              simp [hc, this.1, this.2]
    · simpa [hh, hs] using h

theorem runLines_inv (ls : List (List Char)) (p : List Char) (st : AggState)
    (h : aggInv st) : aggInv (runLines p st ls).2 := by
  induction ls generalizing p st with
  | nil => exact h
  | cons l ls ih => exact ih _ _ (stepLine_inv p st l h)

theorem processAll_inv (rs : List String) (st : AggState) (h : aggInv st) :
    aggInv (processAll st rs) := by
  induction rs generalizing st with
  | nil => exact h
  | cons r rs ih => exact ih _ (runLines_inv _ _ _ h)

theorem evaluateResponses_inv (rs : List String) :
    aggInv (evaluateResponses rs) :=
  processAll_inv rs emptyAgg aggInv_empty

/-- `dictSet` never shrinks: being a key is monotone under updates, so the
keys of the tally dicts stay pairwise distinct along any run. -/
theorem stepLine_nodup (p : List Char) (st : AggState) (l : List Char)
    (h : (st.total_scores.map Prod.fst).Nodup) :
    (((stepLine p st l).2.total_scores).map Prod.fst).Nodup := by
  unfold stepLine
  by_cases hh : isHeaderLine l
  · simpa [hh] using h
  · by_cases hs : (isScoreLine l && !p.isEmpty) = true
    · simp only [hh, Bool.false_eq_true, if_false, hs, if_true]
      cases hpar : parsedScore l with
      | none => simpa using h
      | some n => exact nodup_keys_dictSet _ _ _ h
    · simpa [hh, hs] using h

theorem runLines_nodup (ls : List (List Char)) (p : List Char)
    (st : AggState) (h : (st.total_scores.map Prod.fst).Nodup) :
    (((runLines p st ls).2.total_scores).map Prod.fst).Nodup := by
  induction ls generalizing p st with
  | nil => exact h
  | cons l ls ih => exact ih _ _ (stepLine_nodup p st l h)

theorem processAll_nodup (rs : List String) (st : AggState)
    (h : (st.total_scores.map Prod.fst).Nodup) :
    (((processAll st rs).total_scores).map Prod.fst).Nodup := by
  induction rs generalizing st with
  | nil => exact h
  | cons r rs ih => exact ih _ (runLines_nodup _ _ _ h)

/-- The categories of the final summary are pairwise distinct: `max_total`
counts 5 per DISTINCT scored category. -/
theorem evaluateResponses_nodup (rs : List String) :
    (((evaluateResponses rs).total_scores).map Prod.fst).Nodup :=
  processAll_nodup rs emptyAgg (by simp [emptyAgg])

/-! ### The claims -/

/-- C1: in the summary phase, each category of `total_scores` (each category
with at least one observation) contributes one line formatted
`cat: avg/5 (averaged over n images)` with `avg = sum / count`; the final
score is the sum of the per-category exact averages; the max total is 5
times the number of distinct scored categories (the keys are pairwise
distinct); and the two-image Clarity example (scores 4 and 2) produces the
line `Clarity: 3.00/5 (averaged over 2 images)` and the line
`TOTAL SCORE: 3.00/5`. -/
theorem C1_summary_phase (rs : List String) :
    ((summarize (evaluateResponses rs)).1
        = "\n--- Final Score Summary ---\n"
          ++ concatAll ((evaluateResponses rs).total_scores.map
              (fun it =>
                catLine (evaluateResponses rs).count_per_category it.1 it.2)))
    ∧ (summarize (evaluateResponses rs)).2.1
        = ((evaluateResponses rs).total_scores.map
            (itemAvg (evaluateResponses rs).count_per_category)).sum
    ∧ (summarize (evaluateResponses rs)).2.2
        = 5 * (evaluateResponses rs).total_scores.length
    ∧ (((evaluateResponses rs).total_scores.map Prod.fst).Nodup)
    ∧ summaryText (evaluateResponses
          ["**Clarity**\nScore: 4/5", "**Clarity**\nScore: 2/5"])
        = "\n--- Final Score Summary ---\nClarity: 3.00/5 (averaged over 2 images)\n\nTOTAL SCORE: 3.00/5\n" := by
  refine ⟨?_, ?_, ?_, evaluateResponses_nodup rs, ?_⟩
  · simp [summarize, summaryLoop_spec]
  · simp [summarize, summaryLoop_spec]
  · simp [summarize, summaryLoop_spec]
  · have h : evaluateResponses
          ["**Clarity**\nScore: 4/5", "**Clarity**\nScore: 2/5"]
        = ⟨[("Clarity", 6)], [("Clarity", 2)]⟩ := by decide
    rw [summaryText, summarize, h]
    have havg : ((6 : Int) : ℚ) / ((2 : Nat) : ℚ) = 3 := by norm_num
    simp only [summaryLoop, catLine, itemAvg, dictGet, if_pos rfl]
    norm_num [havg, formatRat2, round_eq, twoDigits]
    decide

/-- C2, counterexample: the claim predicts that the lowercase line
`score: 4/5` under a pending category contributes 4 to the sum; in fact the
run leaves both tallies empty, because `replace("Score:", "")` is
case-sensitive, so `int("score: 4")` fails and the line is skipped. -/
theorem C2_counterexample :
    evaluateResponses ["**Clarity**\nscore: 4/5"] = emptyAgg
    ∧ dictGet (evaluateResponses
        ["**Clarity**\nscore: 4/5"]).total_scores "Clarity" 0 = 0
    ∧ ¬(dictGet (evaluateResponses
        ["**Clarity**\nscore: 4/5"]).total_scores "Clarity" 0 = 4) := by
  decide

/-- C2, amended: a line matching `score:` case-insensitively while a
category is pending has the text before `/` stripped of exact-case
`Score:` occurrences and parsed as an integer; on success the integer is
added to that category's sum and its count is incremented.  The lowercase
spelling `score: 4/5` passes the match but FAILS the parse (only the
exact-case prefix is removed), so it contributes nothing, while
`Score: 4/5` contributes 4. -/
theorem C2_amended_score_parsing (p : List Char) (st : AggState)
    (l : List Char) (n : Int) (hp : p ≠ []) (hs : isScoreLine l = true)
    (hn : parsedScore l = some n) :
    (dictGet (stepLine p st l).2.total_scores (String.mk p) 0
        = dictGet st.total_scores (String.mk p) 0 + n
      ∧ dictGet (stepLine p st l).2.count_per_category (String.mk p) 0
        = dictGet st.count_per_category (String.mk p) 0 + 1)
    ∧ stepLine "Clarity".data st "score: 4/5".data = ("Clarity".data, st)
    ∧ parsedScore "score: 4/5".data = none
    ∧ parsedScore "Score: 4/5".data = some 4 := by
  refine ⟨⟨?_, ?_⟩, ?_, by decide, by decide⟩
  · rw [stepLine_score_some p st l n hp hs hn]
    simp [dictGet_dictSet]
  · rw [stepLine_score_some p st l n hp hs hn]
    simp [dictGet_dictSet]
  · simp [stepLine,
      show isHeaderLine "score: 4/5".data = false from by decide,
      show parsedScore "score: 4/5".data = none from by decide]

/-- C2, witness for the amended theorem at `p = "Clarity"`,
`l = "Score: 4/5"`, `n = 4`, starting from empty tallies. -/
theorem C2_witness :
    (dictGet (stepLine "Clarity".data emptyAgg
          "Score: 4/5".data).2.total_scores (String.mk "Clarity".data) 0
        = dictGet emptyAgg.total_scores (String.mk "Clarity".data) 0 + 4
      ∧ dictGet (stepLine "Clarity".data emptyAgg
            "Score: 4/5".data).2.count_per_category
            (String.mk "Clarity".data) 0
        = dictGet emptyAgg.count_per_category (String.mk "Clarity".data) 0
            + 1)
    ∧ stepLine "Clarity".data emptyAgg "score: 4/5".data
        = ("Clarity".data, emptyAgg)
    ∧ parsedScore "score: 4/5".data = none
    ∧ parsedScore "Score: 4/5".data = some 4 :=
  C2_amended_score_parsing "Clarity".data emptyAgg "Score: 4/5".data 4
    (by decide) (by decide) (by decide)

/-- C3, counterexample: the claim predicts that after one `Score:` line has
consumed the pending category, a second `Score:` line before any new header
contributes nothing; in fact `prev_line` is never cleared, so
`**Clarity**` followed by `Score: 4/5` and `Score: 3/5` yields sum 7 and
count 2 for Clarity, not sum 4 and count 1. -/
theorem C3_counterexample :
    dictGet (evaluateResponses
        ["**Clarity**\nScore: 4/5\nScore: 3/5"]).total_scores "Clarity" 0 = 7
    ∧ dictGet (evaluateResponses
        ["**Clarity**\nScore: 4/5\nScore: 3/5"]).count_per_category
        "Clarity" 0 = 2
    ∧ ¬(dictGet (evaluateResponses
        ["**Clarity**\nScore: 4/5\nScore: 3/5"]).count_per_category
        "Clarity" 0 = 1) := by
  decide

/-- C3, amended: a `**`-delimited line sets the current category to its
trimmed inner text, replacing any prior pending category; every other line
— a `Score:` line included — leaves the pending category UNCHANGED (it
lasts until the next header or the end of the text and is not consumed),
so a second `Score:` line before a new header contributes to the same
category again, as the 4/5-then-3/5 example shows. -/
theorem C3_amended_pending_category :
    (∀ (p : List Char) (st : AggState) (l : List Char),
        (stepLine p st l).1
          = if isHeaderLine l then pyStrip (dropStars l) else p)
    ∧ evaluateResponses ["**Clarity**\nScore: 4/5\nScore: 3/5"]
        = ⟨[("Clarity", 7)], [("Clarity", 2)]⟩ :=
  ⟨stepLine_fst, by decide⟩

/-- C4: `**Clarity**` then `Score: 4/5` yields the tally sum 4 / count 1
for Clarity; `**Clarity**` then `Score: abc/5` creates no tally entry at
all (the parse failure is silently skipped — the aggregation state equals
the empty state), and the evaluation of the image is not aborted: its
results entry is still produced. -/
theorem C4_parse_success_and_failure :
    evaluateResponses ["**Clarity**\nScore: 4/5"]
      = ⟨[("Clarity", 4)], [("Clarity", 1)]⟩
    ∧ evaluateResponses ["**Clarity**\nScore: abc/5"] = emptyAgg
    ∧ (evaluateCombinedPages (fun _ _ => "**Clarity**\nScore: abc/5")
        [⟨none, "t", ["img"]⟩]).results.length = 1
    ∧ (evaluateCombinedPages (fun _ _ => "**Clarity**\nScore: abc/5")
        [⟨none, "t", ["img"]⟩]).st = emptyAgg := by
  decide

/-- C5: feeding the same multiset of per-image responses to the aggregator
in any order yields the same final per-category averages: the per-response
contributions to each category's sum and count add up commutatively. -/
theorem C5_order_invariance (rs₁ rs₂ : List String) (h : rs₁.Perm rs₂)
    (cat : String) :
    categoryAverage (evaluateResponses rs₁) cat
      = categoryAverage (evaluateResponses rs₂) cat := by
  rw [categoryAverage, categoryAverage, evaluateResponses_total,
    evaluateResponses_total, evaluateResponses_count,
    evaluateResponses_count, (h.map (fun r => respTotal r cat)).sum_eq,
    (h.map (fun r => respCount r cat)).sum_eq]

/-- C5, witness: the two-response Clarity example in both orders. -/
theorem C5_witness :
    categoryAverage (evaluateResponses
        ["**Clarity**\nScore: 4/5", "**Clarity**\nScore: 2/5"]) "Clarity"
      = categoryAverage (evaluateResponses
        ["**Clarity**\nScore: 2/5", "**Clarity**\nScore: 4/5"]) "Clarity" :=
  C5_order_invariance _ _
    (List.Perm.swap "**Clarity**\nScore: 2/5" "**Clarity**\nScore: 4/5" [])
    "Clarity"

/-- C6: processing the vision-failure sentinel response raises nothing and
leaves every tally exactly as it was (for ANY current state), and the
sentinel text is retained verbatim in that image's entry of the results
list. -/
theorem C6_sentinel_harmless :
    (∀ st : AggState, processResult st visionSentinel = st)
    ∧ (evaluateCombinedPages (fun _ _ => visionSentinel)
        [⟨none, "text", ["img"]⟩]).results
      = ["📄 PDF Page 1, 🖼️ Image 1 (Global Image 1) Evaluation:\n[ERROR: Vision API failed]\n"]
    ∧ (evaluateCombinedPages (fun _ _ => visionSentinel)
        [⟨none, "text", ["img"]⟩]).st = emptyAgg :=
  ⟨fun _ => rfl, by decide, by decide⟩

/-- C7: each gateway operation returns the completion text on success and
its fixed literal sentinel on any error of the underlying call — it is a
total function of the outcome, so no exception propagates. -/
theorem C7_gateway_sentinels :
    (∀ content : String, call_chat (Except.ok content) = content)
    ∧ (∀ e : String, call_chat (Except.error e) = "[ERROR: Chat API failed]")
    ∧ (∀ content : String,
        call_vision_mixed (Except.ok content) = content)
    ∧ (∀ e : String,
        call_vision_mixed (Except.error e) = "[ERROR: Vision API failed]") :=
  ⟨fun _ => rfl, fun _ => rfl, fun _ => rfl, fun _ => rfl⟩

/-- C8, counterexample: the claim says every returned record carries a
1-based `pageNumber` field; in fact the extractor appends records with only
`text` and `images` keys, so the field is absent (`none`), not `some 1`. -/
theorem C8_counterexample :
    ((extract_text_and_images_per_page (fun s : String => s)
        [⟨"hello", ["img1"]⟩]).map PageRec.page_number = [none])
    ∧ ¬((extract_text_and_images_per_page (fun s : String => s)
        [⟨"hello", ["img1"]⟩]).map PageRec.page_number = [some 1]) := by
  decide

/-- C8, amended: `extract` returns exactly one record per page, in page
order, each with the page's text and its encoded images in document order —
but no record carries a page-number field; the page number is derived by
the consumer, whose defaulted lookup `page.get("page_number", i + 1)`
yields the 1-based position `i + 1` for every record. -/
theorem C8_amended_extractor {Img : Type} (encode : Img → String)
    (doc : List (PdfPage Img)) :
    (extract_text_and_images_per_page encode doc).length = doc.length
    ∧ (extract_text_and_images_per_page encode doc).map PageRec.text
        = doc.map PdfPage.text
    ∧ (extract_text_and_images_per_page encode doc).map PageRec.images
        = doc.map (fun page => page.images.map encode)
    ∧ (∀ (i : Nat) (pr : PageRec),
        (extract_text_and_images_per_page encode doc)[i]? = some pr →
          pr.page_number = none ∧ pr.page_number.getD (i + 1) = i + 1) := by
  refine ⟨by simp [extract_text_and_images_per_page],
    by simp [extract_text_and_images_per_page],
    by simp [extract_text_and_images_per_page], ?_⟩
  intro i pr hpr
  have hmem := List.getElem?_mem hpr
  rw [extract_text_and_images_per_page] at hmem
  rcases List.mem_map.1 hmem with ⟨page, _, hEq⟩
  rw [← hEq]
  exact ⟨rfl, rfl⟩

/-- C8, witness for the amended theorem: a one-page document whose single
record is looked up at index 0 and numbered 1. -/
theorem C8_witness :
    ((extract_text_and_images_per_page (fun s : String => s)
        [⟨"hello", ["a", "b"]⟩])[0]? = some ⟨none, "hello", ["a", "b"]⟩)
    ∧ ((⟨none, "hello", ["a", "b"]⟩ : PageRec).page_number = none
      ∧ (⟨none, "hello", ["a", "b"]⟩ : PageRec).page_number.getD (0 + 1)
          = 0 + 1) :=
  ⟨by decide,
    (C8_amended_extractor (fun s : String => s)
        [⟨"hello", ["a", "b"]⟩]).2.2.2 0 ⟨none, "hello", ["a", "b"]⟩
      (by decide)⟩

/-- C9: every category key of the score-sum dict is also a key of the
observation-count dict with count at least 1 (the two dicts are only ever
updated together on a successful parse), so the summary's division
`sum / count` never divides by zero. -/
theorem C9_tally_invariant (rs : List String) (cat : String)
    (h : dictMem (evaluateResponses rs).total_scores cat = true) :
    dictMem (evaluateResponses rs).count_per_category cat = true
    ∧ 1 ≤ dictGet (evaluateResponses rs).count_per_category cat 0
    ∧ ((dictGet (evaluateResponses rs).count_per_category cat 0 : Nat) : ℚ)
        ≠ 0 := by
  obtain ⟨h1, h2⟩ := evaluateResponses_inv rs cat h
  refine ⟨h1, h2, ?_⟩
  have hne : dictGet (evaluateResponses rs).count_per_category cat 0 ≠ 0 :=
    by omega
  exact_mod_cast hne

/-- C9, witness at the single-response Clarity example. -/
theorem C9_witness :
    dictMem (evaluateResponses
        ["**Clarity**\nScore: 4/5"]).count_per_category "Clarity" = true
    ∧ 1 ≤ dictGet (evaluateResponses
        ["**Clarity**\nScore: 4/5"]).count_per_category "Clarity" 0
    ∧ ((dictGet (evaluateResponses
        ["**Clarity**\nScore: 4/5"]).count_per_category "Clarity" 0
          : Nat) : ℚ) ≠ 0 :=
  C9_tally_invariant ["**Clarity**\nScore: 4/5"] "Clarity" (by decide)

/-- C10: no range validation is performed on parsed scores — whatever
integer the `Score:` line parses to is added to the pending category's sum,
so a response scoring 99/5 yields a reported average of 99 (exceeding 5)
and a response scoring -3/5 yields a negative average. -/
theorem C10_no_range_validation (p : List Char) (st : AggState)
    (l : List Char) (n : Int) (hp : p ≠ []) (hs : isScoreLine l = true)
    (hn : parsedScore l = some n) :
    dictGet (stepLine p st l).2.total_scores (String.mk p) 0
      = dictGet st.total_scores (String.mk p) 0 + n
    ∧ (5 : ℚ) < categoryAverage (evaluateResponses
        ["**Clarity**\nScore: 99/5"]) "Clarity"
    ∧ categoryAverage (evaluateResponses
        ["**Clarity**\nScore: -3/5"]) "Clarity" < 0 := by
  refine ⟨?_, ?_, ?_⟩
  · rw [stepLine_score_some p st l n hp hs hn]
    simp [dictGet_dictSet]
  · have h : evaluateResponses ["**Clarity**\nScore: 99/5"]
        = ⟨[("Clarity", 99)], [("Clarity", 1)]⟩ := by decide
    rw [categoryAverage, h]
    norm_num [dictGet]
  · have h : evaluateResponses ["**Clarity**\nScore: -3/5"]
        = ⟨[("Clarity", -3)], [("Clarity", 1)]⟩ := by decide
    rw [categoryAverage, h]
    norm_num [dictGet]

/-- C10, witness at the 99/5 line starting from empty tallies. -/
theorem C10_witness :
    dictGet (stepLine "Clarity".data emptyAgg
        "Score: 99/5".data).2.total_scores (String.mk "Clarity".data) 0
      = dictGet emptyAgg.total_scores (String.mk "Clarity".data) 0 + 99
    ∧ (5 : ℚ) < categoryAverage (evaluateResponses
        ["**Clarity**\nScore: 99/5"]) "Clarity"
    ∧ categoryAverage (evaluateResponses
        ["**Clarity**\nScore: -3/5"]) "Clarity" < 0 :=
  C10_no_range_validation "Clarity".data emptyAgg "Score: 99/5".data 99
    (by decide) (by decide) (by decide)
